import Mathlib

/-!
Verification of the `betradefi-solana` program
(`src/betradefi-solana/programs/betradefi-solana/src/lib.rs`).

The program is an Anchor scaffold: it declares a fixed program id,
exposes a single instruction handler (named `initialize` in the Rust
source; embedded here as `initHandler`, since that word is reserved in
Lean) whose body is `msg!("Greetings from: {:?}", ctx.program_id)`
followed by `Ok(())`, and declares an empty account-context struct
(`Initialize` in the Rust source; embedded here as `InitAccounts`).

The embedding makes the runtime-visible effects explicit: the handler
receives an execution context (program id plus the supplied account
list) and the persistent on-chain state, and returns its result, the
state after the call, and the list of log lines it emitted.
-/

namespace BeTraDeFi

/-- A runtime account as visible to a program: address, balance,
owner, and raw data bytes. -/
structure AccountInfo where
  key : String
  lamports : Nat
  owner : String
  data : List Nat
deriving DecidableEq

/-- Persistent on-chain state: the accounts the runtime holds. -/
abbrev ProgramState := List AccountInfo

/-- Program-level errors an Anchor handler could return.  The
scaffold never constructs one; the type exists so the handler result
is a genuine `Except`, as `Result<()>` is in the source. -/
inductive ProgramError where
  | accountError (code : Nat)
  | custom (code : Nat)
deriving DecidableEq

/-- The program id declared by
`declare_id!("8P8E86Du9K1uo5CSeU1MkmRbEqDKvfWtwWdGijRZAuzf")`
(line 3 of the source).  Anchor exposes it as the constant `ID`. -/
def ID : String := "8P8E86Du9K1uo5CSeU1MkmRbEqDKvfWtwWdGijRZAuzf"

/-- The Rust `Debug` rendering of a `Pubkey` (what `{:?}` produces):
it prints the base58 text of the key, which is how keys are carried
in this embedding, so the rendering is the string itself. -/
def pubkeyDebug (pk : String) : String := pk

/-- The execution context handed to the handler: the program id the
runtime resolved for this invocation, and the supplied accounts
(`ctx.program_id` and the remaining accounts in Anchor terms). -/
structure Context where
  program_id : String
  accounts : List AccountInfo
deriving DecidableEq

/-- Everything observable about one handler invocation: the returned
result, the persistent state after the call, and the log lines the
call emitted. -/
structure HandlerOutput where
  result : Except ProgramError Unit
  state : ProgramState
  log : List String

/-- The handler named `initialize` in the source (lines 9-12):
`msg!("Greetings from: {:?}", ctx.program_id); Ok(())`.
It emits one log line built from the context program id, touches no
account, and returns success. -/
def initHandler (ctx : Context) (st : ProgramState) : HandlerOutput :=
  { result := Except.ok ()
    state := st
    log := ["Greetings from: " ++ pubkeyDebug ctx.program_id] }

/-- The empty account-context struct `Initialize` of the source
(lines 15-16): zero declared accounts, zero constraints. -/
structure InitAccounts
deriving DecidableEq

/-- Modelled from the spec: the account-validation step that
`#[derive(Accounts)]` generates for the field-less `Initialize`
struct is macro-expanded framework code absent from the source tree.
Per the spec the empty contract is "always valid/empty" and the
runtime merely "validates the declared account set against the empty
contract": with zero declared accounts there is nothing to check, the
supplied accounts are left over rather than rejected, and the
construction succeeds. -/
def InitAccounts.tryAccounts (_accs : List AccountInfo) :
    Except ProgramError InitAccounts :=
  Except.ok ⟨⟩

/-- The instruction surface of the `#[program] mod betradefi_solana`
module (lines 5-13): the module declares exactly one public handler,
so the instruction type has exactly one constructor. -/
inductive Instruction where
  | initIx
deriving DecidableEq

/-- The dispatch the `#[program]` attribute generates: route each
instruction to its handler.  There is only one. -/
def dispatch : Instruction → Context → ProgramState → HandlerOutput
  | Instruction.initIx, ctx, st => initHandler ctx st

/-- Invoke the handler `n` times in sequence, each call starting from
the state the previous call left behind; record every call result
paired with the state after that call. -/
def runSeq : Nat → Context → ProgramState →
    List (Except ProgramError Unit × ProgramState)
  | 0, _, _ => []
  | n + 1, ctx, st =>
    let out := initHandler ctx st
    (out.result, out.state) :: runSeq n ctx out.state

/-- Does `pat` occur at the head of `txt`? -/
def listLeads : List Char → List Char → Bool
  | [], _ => true
  | _ :: _, [] => false
  | a :: as, b :: bs => a == b && listLeads as bs

/-- Does `pat` occur anywhere inside `txt`? -/
def listOccurs (pat : List Char) : List Char → Bool
  | [] => listLeads pat []
  | c :: rest => listLeads pat (c :: rest) || listOccurs pat rest

/-- Substring test on strings, via their character lists. -/
def strOccurs (pat txt : String) : Bool := listOccurs pat.data txt.data

/-- Claim C1: for every invocation of the handler — any execution
context, in particular one with an empty account set, and any
starting state — the result is `Ok(())`; no input makes the handler
itself return an error, so its error branch is unreachable. -/
theorem initHandler_always_ok (ctx : Context) (st : ProgramState) :
    (initHandler ctx st).result = Except.ok () := rfl

/-- Claim C2, counterexample: the handler logs the context program
id, not the compile-time declared constant.  With a context whose
program id is "Q", the single emitted message is "Greetings from: Q",
and the declared id does not occur in it: the claim that the logged
identifier equals the declared program id is false at this input. -/
theorem logged_id_not_declared_id_cex :
    (initHandler { program_id := "Q", accounts := [] } []).log
        = ["Greetings from: Q"]
      ∧ strOccurs ID "Greetings from: Q" = false
      ∧ pubkeyDebug "Q" ≠ ID :=
  ⟨rfl, by decide, by decide⟩

/-- Claim C2, amended: the single diagnostic message contains the
context program id; when the runtime supplies a context whose program
id equals the declared constant `ID` — as the hosting runtime does
when dispatching to this program — the logged identifier equals the
declared id and the declared id occurs in the message. -/
theorem initHandler_logs_declared_id (ctx : Context) (st : ProgramState)
    (h : ctx.program_id = ID) :
    (initHandler ctx st).log = ["Greetings from: " ++ ID]
      ∧ strOccurs ID ("Greetings from: " ++ ID) = true := by
  constructor
  · simp [initHandler, pubkeyDebug, h]
  · decide

/-- Witness for the amended claim C2, at the context the runtime
actually builds: program id `ID`, no accounts, empty state. -/
theorem initHandler_logs_declared_id_witness :
    ({ program_id := ID, accounts := [] } : Context).program_id = ID
      ∧ ((initHandler { program_id := ID, accounts := [] } []).log
            = ["Greetings from: " ++ ID]
          ∧ strOccurs ID ("Greetings from: " ++ ID) = true) :=
  ⟨rfl, initHandler_logs_declared_id { program_id := ID, accounts := [] } [] rfl⟩

/-- Claim C3: the handler performs no state reads or writes that
alter anything persistent — the entire on-chain state after the call
equals the state before it, so the log emission is the only effect. -/
theorem initHandler_state_unchanged (ctx : Context) (st : ProgramState) :
    (initHandler ctx st).state = st := rfl

/-- Claim C4: invoking the handler `n ≥ 1` times in sequence from any
starting state yields `n` successes, and after every step of the
sequence the state is still the starting state — nothing accumulates
and no call depends on an earlier one. -/
theorem runSeq_independent_successes (n : Nat) (ctx : Context)
    (st : ProgramState) (h : 1 ≤ n) :
    runSeq n ctx st = List.replicate n (Except.ok (), st) := by
  clear h
  induction n with
  | zero => rfl
  | succ k ih => simpa [runSeq, initHandler, List.replicate] using ih

/-- Witness for claim C4: three sequential invocations from the
empty state are three successes, each leaving the state empty. -/
theorem runSeq_independent_successes_witness :
    1 ≤ 3
      ∧ runSeq 3 { program_id := ID, accounts := [] } []
          = List.replicate 3 (Except.ok (), ([] : ProgramState)) :=
  ⟨by decide,
    runSeq_independent_successes 3 { program_id := ID, accounts := [] } []
      (by decide)⟩

/-- Claim C5: the handler is deterministic and state-free — any two
invocations whose contexts carry the same program id return the same
result and emit the same log, whatever states they start from, so no
prior invocation can change what a later one returns or logs. -/
theorem initHandler_deterministic (c₁ c₂ : Context)
    (s₁ s₂ : ProgramState) (h : c₁.program_id = c₂.program_id) :
    (initHandler c₁ s₁).result = (initHandler c₂ s₂).result
      ∧ (initHandler c₁ s₁).log = (initHandler c₂ s₂).log := by
  exact ⟨rfl, by simp [initHandler, pubkeyDebug, h]⟩

/-- Witness for claim C5: two invocations with the same program id
but different account lists and different states agree on result and
log. -/
theorem initHandler_deterministic_witness :
    ({ program_id := ID, accounts := [] } : Context).program_id
        = ({ program_id := ID,
             accounts := [{ key := "A", lamports := 5, owner := ID,
                            data := [1] }] } : Context).program_id
      ∧ ((initHandler { program_id := ID, accounts := [] } []).result
            = (initHandler
                { program_id := ID,
                  accounts := [{ key := "A", lamports := 5, owner := ID,
                                 data := [1] }] }
                [{ key := "A", lamports := 5, owner := ID,
                   data := [1] }]).result
          ∧ (initHandler { program_id := ID, accounts := [] } []).log
              = (initHandler
                  { program_id := ID,
                    accounts := [{ key := "A", lamports := 5, owner := ID,
                                   data := [1] }] }
                  [{ key := "A", lamports := 5, owner := ID,
                     data := [1] }]).log) :=
  ⟨rfl,
    initHandler_deterministic
      { program_id := ID, accounts := [] }
      { program_id := ID,
        accounts := [{ key := "A", lamports := 5, owner := ID,
                       data := [1] }] }
      []
      [{ key := "A", lamports := 5, owner := ID, data := [1] }]
      rfl⟩

/-- Claim C6: the instruction surface is exactly one callable
operation — every instruction is the single constructor, the account
context carries zero accounts (it is a subsingleton with no fields),
and dispatch routes everything to the one handler, which takes no
argument beyond the context and the state. -/
theorem single_instruction_surface :
    (∀ i : Instruction, i = Instruction.initIx)
      ∧ (∀ a b : InitAccounts, a = b)
      ∧ (∀ (i : Instruction) (ctx : Context) (st : ProgramState),
          dispatch i ctx st = initHandler ctx st) := by
  refine ⟨?_, ?_, ?_⟩
  · intro i; cases i; rfl
  · intro a b; cases a; cases b; rfl
  · intro i ctx st; cases i; rfl

/-- Claim C7: the declared program identifier is the fixed constant
"8P8E86Du9K1uo5CSeU1MkmRbEqDKvfWtwWdGijRZAuzf", compiled into the
artifact and independent of any invocation or input. -/
theorem declared_id_fixed :
    ID = "8P8E86Du9K1uo5CSeU1MkmRbEqDKvfWtwWdGijRZAuzf" := rfl

/-- Claim C8: the emitted log is exactly the one-element list holding
"Greetings from: " followed by the debug rendering of the context
program id — the runtime-supplied identifier, not the declared
constant — and nothing else. -/
theorem initHandler_log_exact (ctx : Context) (st : ProgramState) :
    (initHandler ctx st).log
      = ["Greetings from: " ++ pubkeyDebug ctx.program_id] := rfl

/-- Claim C9: account validation for the empty context never fails —
with zero declared accounts and zero constraints, construction
succeeds for every supplied account list, extra accounts being
ignored rather than rejected, so the validation error branch is
unreachable. -/
theorem tryAccounts_never_fails (accs : List AccountInfo) :
    InitAccounts.tryAccounts accs = Except.ok ⟨⟩ := rfl

/-- Claim C10 (noninterference): the handler output does not depend
on which accounts the caller supplies — two contexts with the same
program id but arbitrary account lists produce the same result, the
same final state, and the same log. -/
theorem initHandler_account_noninterference (pid : String)
    (accs₁ accs₂ : List AccountInfo) (st : ProgramState) :
    initHandler { program_id := pid, accounts := accs₁ } st
      = initHandler { program_id := pid, accounts := accs₂ } st := rfl

end BeTraDeFi
